import Mathlib

/-!
Shallow embedding of the Discuss-app core (Next.js server actions over a
Mongo-style document store) and proofs of its specification claims.

The embedding follows the TypeScript sources:
* `app/model/DiscussDiscussion.ts`, `app/model/DiscussComment.ts`,
  `app/model/DiscussUser.ts` — document shapes and schema defaults.
* `app/actions/discussion.actions.ts` — `getDiscussions`, `getMyDiscussions`,
  `addDiscussion`, `toggleLike`.
* `app/actions/comment.actions.ts` — `getCommentByDiscussionId`,
  `toggleCommentLike`.
* `app/actions/auth.actions.ts` — `createDiscussAccount`.
* `app/lib/validations.ts` — the zod schemas `createDiscussionSchema`,
  `createCommentSchema`, `userResgistrationSchema` (sic).
* `app/lib/auth.ts` — the NextAuth `authorize` callback and the jwt/session
  callbacks.

Modelling conventions:
* Mongo ObjectIds, timestamps and ISO strings are modelled as `String` / `Nat`.
* A `likedBy` array entry is `Option String`: `some u` is a stored user-id
  string; `none` models a `null` entry, which arises when the action runs with
  no session (`session?.user?.id` is `undefined`; `Array.includes(undefined)`
  is `false` on such arrays, and the driver serialises an `undefined` `$push`
  value as `null`).
* A thrown JS value is `JSError`: `.error msg` is an `Error` instance (so
  `err instanceof Error` holds and `err.message = msg`), `.nonError` is any
  other thrown value.  Backing-store failures are injected through an
  `Option JSError` parameter: `some e` makes the first store access of the
  action throw `e`, exercising the `catch` branch exactly as a connection
  failure would.
-/

namespace Discuss

/-- A user document (`DiscussUser.ts`): email, bcrypt password hash, display
name.  `_id` is the store-assigned id. -/
structure User where
  _id : String
  email : String
  password : String
  fullName : String
deriving Repr, DecidableEq

/-- A discussion document (`DiscussDiscussion.ts`): owning user id, title,
description, upvote counter (schema default 0), `likedBy` array of voter ids
(schema default `[]`), creation timestamp. -/
structure Discussion where
  _id : String
  userId : String
  title : String
  description : String
  upVote : Int
  likedBy : List (Option String)
  createdAt : Nat
deriving Repr, DecidableEq

/-- A comment document (`DiscussComment.ts`): parent discussion id, owning
user id, text, upvote counter, `likedBy` array, creation timestamp. -/
structure Comment where
  _id : String
  discussId : String
  userId : String
  description : String
  upVote : Int
  likedBy : List (Option String)
  createdAt : Nat
deriving Repr, DecidableEq

/-- The document store: the three collections the app uses. -/
structure DB where
  users : List User
  discussions : List Discussion
  comments : List Comment
deriving Repr, DecidableEq

/-- A thrown JavaScript value, as discriminated by the actions' `catch`
blocks: an `Error` instance with its `.message`, or any other value. -/
inductive JSError where
  | error (msg : String)
  | nonError
deriving Repr, DecidableEq

/-- The schema defaults used by `DiscussDiscussion.create` in `addDiscussion`:
`upVote: 0` is passed explicitly, `likedBy` defaults to `[]`. -/
def newDiscussion (id uid title description : String) (now : Nat) : Discussion :=
  { _id := id, userId := uid, title := title, description := description,
    upVote := 0, likedBy := [], createdAt := now }

/-- The values passed by `DiscussComment.create` in `addComment`:
`upVote: 0`, `likedBy: []`. -/
def newComment (id did uid description : String) (now : Nat) : Comment :=
  { _id := id, discussId := did, userId := uid, description := description,
    upVote := 0, likedBy := [], createdAt := now }

/-- `discussion.likedBy.includes(userId)` for a logged-in user `u`
(`userId = session.user.id`, a string). -/
def memberLike (u : String) (l : List (Option String)) : Bool :=
  l.contains (some u)

/-- The `$pull: { likedBy: userId }, $inc: { upVote: -1 }` update of
`toggleLike` / `toggleCommentLike`, applied to the `(upVote, likedBy)` fields:
`$pull` removes every array entry equal to `userId` (`v = none` is the
`undefined`-serialised-as-`null` case), `$inc` adds −1. -/
def pullLikeFields (v : Option String) (upVote : Int) (l : List (Option String)) :
    Int × List (Option String) :=
  (upVote - 1, l.filter (fun x => x ≠ v))

/-- The `$push: { likedBy: userId }, $inc: { upVote: 1 }` update:
`$push` appends `userId` at the end of the array, `$inc` adds 1. -/
def pushLikeFields (v : Option String) (upVote : Int) (l : List (Option String)) :
    Int × List (Option String) :=
  (upVote + 1, l ++ [v])

/-- The document-level effect of one completed `toggleLike` by the logged-in
user `u` on a discussion: the membership test on `likedBy` selects between the
`$pull`/`$inc:-1` and the `$push`/`$inc:+1` atomic updates. -/
def toggleStepDiscussion (u : String) (d : Discussion) : Discussion :=
  if memberLike u d.likedBy then
    let p := pullLikeFields (some u) d.upVote d.likedBy
    { d with upVote := p.1, likedBy := p.2 }
  else
    let p := pushLikeFields (some u) d.upVote d.likedBy
    { d with upVote := p.1, likedBy := p.2 }

/-- The document-level effect of one completed `toggleCommentLike` by the
logged-in user `u` on a comment; the code is identical to `toggleLike` modulo
the collection. -/
def toggleStepComment (u : String) (c : Comment) : Comment :=
  if memberLike u c.likedBy then
    let p := pullLikeFields (some u) c.upVote c.likedBy
    { c with upVote := p.1, likedBy := p.2 }
  else
    let p := pushLikeFields (some u) c.upVote c.likedBy
    { c with upVote := p.1, likedBy := p.2 }

/-- Discussion documents reachable through the app's own write paths executed
to completion: creation by `addDiscussion`, followed by any sequence of
`toggleLike` calls made with a logged-in session (user id `u`). -/
inductive ReachableDiscussion : Discussion → Prop where
  | created (id uid title description : String) (now : Nat) :
      ReachableDiscussion (newDiscussion id uid title description now)
  | toggled (u : String) (d : Discussion) :
      ReachableDiscussion d → ReachableDiscussion (toggleStepDiscussion u d)

/-- Comment documents reachable through `addComment` creation followed by any
sequence of logged-in `toggleCommentLike` calls. -/
inductive ReachableComment : Comment → Prop where
  | created (id did uid description : String) (now : Nat) :
      ReachableComment (newComment id did uid description now)
  | toggled (u : String) (c : Comment) :
      ReachableComment c → ReachableComment (toggleStepComment u c)

/-- The like-counter invariant for a single `(upVote, likedBy)` pair: the
counter equals the length of the voter array, and the array has no duplicate
entries (so its length is also the cardinality of the voter-id set). -/
def LikeInv (upVote : Int) (l : List (Option String)) : Prop :=
  upVote = (l.length : Int) ∧ l.Nodup

/-- A document-level operation issued to the backing store by a toggle action:
a plain read (`Model.findById`) or the single combined atomic update
(`Model.findByIdAndUpdate` with `$pull`/`$push` on `likedBy` together with
`$inc` on `upVote`, `{ new: true }`). -/
inductive StoreOp where
  | findById (id : String)
  | findByIdAndUpdate (id : String) (pull : Bool) (value : Option String)
deriving Repr, DecidableEq

/-- `DiscussDiscussion.findById(id)`. -/
def findDiscussionById (db : DB) (id : String) : Option Discussion :=
  db.discussions.find? (fun d => d._id == id)

/-- `DiscussComment.findById(id)`. -/
def findCommentById (db : DB) (id : String) : Option Comment :=
  db.comments.find? (fun c => c._id == id)

/-- `DiscussDiscussion.findByIdAndUpdate(id, f, { new: true })`: applies the
atomic update `f` to the document with the given id and returns the updated
document (or `null` when no document has that id). -/
def findDiscussionByIdAndUpdate (db : DB) (id : String) (f : Discussion → Discussion) :
    Option Discussion × DB :=
  match findDiscussionById db id with
  | none => (none, db)
  | some d =>
      (some (f d),
       { db with discussions :=
           db.discussions.map (fun x => if x._id == id then f x else x) })

/-- `DiscussComment.findByIdAndUpdate(id, f, { new: true })`. -/
def findCommentByIdAndUpdate (db : DB) (id : String) (f : Comment → Comment) :
    Option Comment × DB :=
  match findCommentById db id with
  | none => (none, db)
  | some c =>
      (some (f c),
       { db with comments :=
           db.comments.map (fun x => if x._id == id then f x else x) })

/-- The object returned by `toggleLike` / `toggleCommentLike`: on the success
path `{ success: true, upVote, likedBy: !hasLiked }` (no `error` field,
modelled as `none`), on the catch path
`{ success: false, error, upVote: 0, likedBy: false }`. -/
structure ToggleResult where
  success : Bool
  error : Option String
  upVote : Int
  likedBy : Bool
deriving Repr, DecidableEq

/-- `updatedDiscussion?.upVote || 0`: `undefined` (no document) yields `0`;
an integer yields itself (`0 || 0` is `0`). -/
def jsOrZero (x : Option Int) : Int :=
  match x with
  | none => 0
  | some v => v

/-- The atomic update issued by a toggle given the caller-computed `hasLiked`
and the session's `userId` (possibly `undefined`): `$pull`+`$inc:-1` when
`hasLiked`, else `$push`+`$inc:+1`. -/
def toggleUpdateDiscussion (hasLiked : Bool) (v : Option String)
    (d : Discussion) : Discussion :=
  if hasLiked then
    let p := pullLikeFields v d.upVote d.likedBy
    { d with upVote := p.1, likedBy := p.2 }
  else
    let p := pushLikeFields v d.upVote d.likedBy
    { d with upVote := p.1, likedBy := p.2 }

/-- Same update on a comment document (`toggleCommentLike`). -/
def toggleUpdateComment (hasLiked : Bool) (v : Option String)
    (c : Comment) : Comment :=
  if hasLiked then
    let p := pullLikeFields v c.upVote c.likedBy
    { c with upVote := p.1, likedBy := p.2 }
  else
    let p := pushLikeFields v c.upVote c.likedBy
    { c with upVote := p.1, likedBy := p.2 }

/-- `toggleLike(discussId)` from `discussion.actions.ts`.

`sessionUserId` is `session?.user?.id` (a string when logged in, `undefined`
otherwise); `fail` injects a backing-store failure at the first store access
(the whole `try` body then throws and the `catch` branch runs).  Returns the
result object, the new store state, and the trace of document-store operations
issued.  When the discussion id does not resolve, reading
`discussion.likedBy` on `null` throws a `TypeError` (an `Error` instance)
which the `catch` turns into a failure result.  Note the function performs no
check at all on `sessionUserId`. -/
def toggleLike (fail : Option JSError) (db : DB) (sessionUserId : Option String)
    (discussId : String) : ToggleResult × DB × List StoreOp :=
  match fail with
  | some e =>
      ({ success := false,
         error := some (match e with | .error m => m | .nonError => "Unknown error"),
         upVote := 0, likedBy := false }, db, [])
  | none =>
    match findDiscussionById db discussId with
    | none =>
        ({ success := false,
           error := some "Cannot read properties of null (reading 'likedBy')",
           upVote := 0, likedBy := false }, db, [.findById discussId])
    | some discussion =>
        let hasLiked : Bool :=
          match sessionUserId with
          | some u => memberLike u discussion.likedBy
          | none => false
        let r := findDiscussionByIdAndUpdate db discussId
                   (toggleUpdateDiscussion hasLiked sessionUserId)
        ({ success := true, error := none,
           upVote := jsOrZero (r.1.map (fun d => d.upVote)),
           likedBy := !hasLiked }, r.2,
         [.findById discussId, .findByIdAndUpdate discussId hasLiked sessionUserId])

/-- `toggleCommentLike(commentId)` from `comment.actions.ts`; the code is
identical to `toggleLike` modulo the collection. -/
def toggleCommentLike (fail : Option JSError) (db : DB)
    (sessionUserId : Option String) (commentId : String) :
    ToggleResult × DB × List StoreOp :=
  match fail with
  | some e =>
      ({ success := false,
         error := some (match e with | .error m => m | .nonError => "Unknown error"),
         upVote := 0, likedBy := false }, db, [])
  | none =>
    match findCommentById db commentId with
    | none =>
        ({ success := false,
           error := some "Cannot read properties of null (reading 'likedBy')",
           upVote := 0, likedBy := false }, db, [.findById commentId])
    | some comment =>
        let hasLiked : Bool :=
          match sessionUserId with
          | some u => memberLike u comment.likedBy
          | none => false
        let r := findCommentByIdAndUpdate db commentId
                   (toggleUpdateComment hasLiked sessionUserId)
        ({ success := true, error := none,
           upVote := jsOrZero (r.1.map (fun c => c.upVote)),
           likedBy := !hasLiked }, r.2,
         [.findById commentId, .findByIdAndUpdate commentId hasLiked sessionUserId])

/-- A concrete store: one registered user `u1`, one discussion `d1` owned by
`u1` with no likes yet (as produced by `addDiscussion`), and one comment `c1`
under it (as produced by `addComment`). -/
def sampleDb : DB :=
  { users := [{ _id := "u1", email := "a@x.com", password := "hash",
                fullName := "A Test" }],
    discussions := [{ _id := "d1", userId := "u1", title := "Hi There",
                      description := "This is a test discussion body",
                      upVote := 0, likedBy := [], createdAt := 5 }],
    comments := [{ _id := "c1", discussId := "d1", userId := "u1",
                   description := "Nice post", upVote := 0, likedBy := [],
                   createdAt := 6 }] }

/-- The read phase of one `toggleLike` call: `findById` followed by the
caller-side `likedBy.includes(userId)` membership test. -/
def likeReadPhase (u : String) (d : Discussion) : Bool :=
  memberLike u d.likedBy

/-- The write phase of one `toggleLike` call: the single combined
`$pull`/`$push` + `$inc` update chosen from the `hasLiked` value the read
phase produced earlier. -/
def likeWritePhase (u : String) (hasLiked : Bool) (d : Discussion) : Discussion :=
  toggleUpdateDiscussion hasLiked (some u) d

/-- The six interleavings of two concurrent toggle calls on the same document
by threads 1 (user `u1`) and 2 (user `u2`), each thread issuing its read
phase before its write phase. -/
inductive Sched2 where
  | r1r2w1w2
  | r1r2w2w1
  | r1w1r2w2
  | r2r1w1w2
  | r2r1w2w1
  | r2w2r1w1
deriving Repr, DecidableEq

/-- Executes two interleaved toggle calls under the given schedule: each
read phase sees the document state current at its point in the schedule, and
each write phase applies the update chosen by its own earlier read. -/
def runSched2 (s : Sched2) (u1 u2 : String) (d : Discussion) : Discussion :=
  match s with
  | .r1r2w1w2 =>
      let h1 := likeReadPhase u1 d
      let h2 := likeReadPhase u2 d
      likeWritePhase u2 h2 (likeWritePhase u1 h1 d)
  | .r1r2w2w1 =>
      let h1 := likeReadPhase u1 d
      let h2 := likeReadPhase u2 d
      likeWritePhase u1 h1 (likeWritePhase u2 h2 d)
  | .r1w1r2w2 =>
      let h1 := likeReadPhase u1 d
      let d1 := likeWritePhase u1 h1 d
      let h2 := likeReadPhase u2 d1
      likeWritePhase u2 h2 d1
  | .r2r1w1w2 =>
      let h2 := likeReadPhase u2 d
      let h1 := likeReadPhase u1 d
      likeWritePhase u2 h2 (likeWritePhase u1 h1 d)
  | .r2r1w2w1 =>
      let h2 := likeReadPhase u2 d
      let h1 := likeReadPhase u1 d
      likeWritePhase u1 h1 (likeWritePhase u2 h2 d)
  | .r2w2r1w1 =>
      let h2 := likeReadPhase u2 d
      let d2 := likeWritePhase u2 h2 d
      let h1 := likeReadPhase u1 d2
      likeWritePhase u1 h1 d2

/-- `DiscussUser.findOne({ email })`. -/
def findUserByEmail (db : DB) (email : String) : Option User :=
  db.users.find? (fun u => u.email == email)

/-- `DiscussUser.findById(id)`, also the per-document effect of
`.populate("userId", "fullName")`. -/
def findUserById (db : DB) (id : String) : Option User :=
  db.users.find? (fun u => u._id == id)

/-- The object `authorize` returns on success (`{ id, email, name }`). -/
structure AuthUser where
  id : String
  email : String
  name : String
deriving Repr, DecidableEq

/-- The outcome of the `authorize` callback in `app/lib/auth.ts`: `null`
(missing credentials), a thrown `Error` with its message, or a user object. -/
inductive AuthResult where
  | nullResult
  | thrown (msg : String)
  | ok (user : AuthUser)
deriving Repr, DecidableEq

/-- `authorize(credentials)` from `app/lib/auth.ts`, parametrised by
`compare`, the external `bcrypt.compare`.  The guard
`!credentials?.email || !credentials?.password` treats a missing field and an
empty string alike (both falsy), hence the `getD ""`. -/
def authorize (compare : String → String → Bool) (db : DB)
    (email password : Option String) : AuthResult :=
  if email.getD "" = "" ∨ password.getD "" = "" then
    .nullResult
  else
    match findUserByEmail db (email.getD "") with
    | none => .thrown "Invalid credentials"
    | some discussUser =>
        if compare (password.getD "") discussUser.password then
          .ok { id := discussUser._id, email := discussUser.email,
                name := discussUser.fullName }
        else
          .thrown "Invalid credentials"

/-- The JWT payload fields the callbacks copy (`token.id/email/name`). -/
structure Token where
  id : String
  email : String
  name : String
deriving Repr, DecidableEq

/-- The `jwt` callback: on sign-in (`user` present) it copies id, email and
name into the token; otherwise the token passes through. -/
def jwtCallback (token : Token) (user : Option AuthUser) : Token :=
  match user with
  | some u => { id := u.id, email := u.email, name := u.name }
  | none => token

/-- The `session` callback: copies id, email and name from the token into
`session.user`. -/
def sessionCallback (_sessionUser : AuthUser) (token : Token) : AuthUser :=
  { id := token.id, email := token.email, name := token.name }

/-- Stable insertion used to model the store's `.sort(order)`. -/
def insertBy {α : Type} (le : α → α → Bool) (a : α) : List α → List α
  | [] => [a]
  | b :: bs => if le a b then a :: b :: bs else b :: insertBy le a bs

/-- `.sort(order)` on a query result, modelled as insertion sort with the
comparison `le`. -/
def sortBy {α : Type} (le : α → α → Bool) (l : List α) : List α :=
  l.foldr (insertBy le) []

/-- One element of the list `getDiscussions` returns.  `userId` and
`createdBy` are `Option`s because the code reads them through `?.` from the
populated author, which is `null` when the referenced user no longer exists
(the real `userId` string is then `undefined`; when the author exists the
code calls `.toString()` on the populated document, modelled here as the
owning id). -/
structure DiscussionView where
  _id : String
  userId : Option String
  title : String
  description : String
  upVote : Int
  createdAt : Nat
  createdBy : Option String
  isLikedByCurrentUser : Bool
deriving Repr, DecidableEq

/-- The body of the `.map` in `getDiscussions`: author resolution through
`populate`, `createdBy: discussion.userId?.fullName` (no fallback), and
`isLikedByCurrentUser: currentUserId ? likedBy.includes(currentUserId) :
false` (an empty-string id is falsy and short-circuits to `false`). -/
def discussionView (db : DB) (currentUserId : Option String)
    (d : Discussion) : DiscussionView :=
  let author := findUserById db d.userId
  { _id := d._id,
    userId := author.map (fun _ => d.userId),
    title := d.title,
    description := d.description,
    upVote := d.upVote,
    createdAt := d.createdAt,
    createdBy := author.map (fun u => u.fullName),
    isLikedByCurrentUser :=
      match currentUserId with
      | some uid => if uid = "" then false else memberLike uid d.likedBy
      | none => false }

/-- `getDiscussions()` from `discussion.actions.ts`: the whole feed sorted by
`createdAt: -1` (newest first), mapped to views; any thrown error is caught,
logged, and the function returns `[]`. -/
def getDiscussions (fail : Option JSError) (db : DB)
    (currentUserId : Option String) : List DiscussionView :=
  match fail with
  | some _ => []
  | none =>
      (sortBy (fun a b => b.createdAt ≤ a.createdAt) db.discussions).map
        (discussionView db currentUserId)

/-- One element of the list `getMyDiscussions` returns; every field is
mandatory because the code reaches them only when the author resolved. -/
structure MyDiscussionView where
  _id : String
  userId : String
  title : String
  description : String
  upVote : Int
  createdAt : Nat
  createdBy : String
  isLikedByCurrentUser : Bool
deriving Repr, DecidableEq

/-- The body of the `.map` in `getMyDiscussions`: when the author did not
resolve, `discussion.userId.toString()` (no `?.`) throws a `TypeError`
before the `createdBy` fallback line is ever evaluated; when it did,
`createdBy` is `discussion.userId?.fullName || "Unknown User"` (the fallback
also fires for an empty display name, which is falsy). -/
def myDiscussionView (db : DB) (userId : String) (d : Discussion) :
    Except JSError MyDiscussionView :=
  match findUserById db d.userId with
  | none => .error (.error "Cannot read properties of null (reading 'toString')")
  | some author =>
      .ok { _id := d._id,
            userId := d.userId,
            title := d.title,
            description := d.description,
            upVote := d.upVote,
            createdAt := d.createdAt,
            createdBy := if author.fullName = "" then "Unknown User"
                         else author.fullName,
            isLikedByCurrentUser := memberLike userId d.likedBy }

/-- `getMyDiscussions(userId)` from `discussion.actions.ts`:
`find({ userId })` sorted by `createdAt: -1`, mapped; a `TypeError` thrown
inside the map (deleted author) — like any other thrown error — is caught
and the function returns `[]`. -/
def getMyDiscussions (fail : Option JSError) (db : DB) (userId : String) :
    List MyDiscussionView :=
  match fail with
  | some _ => []
  | none =>
      match (sortBy (fun a b => b.createdAt ≤ a.createdAt)
               (db.discussions.filter (fun d => d.userId == userId))).mapM
              (myDiscussionView db userId) with
      | .ok l => l
      | .error _ => []

/-- One element of the list `getCommentByDiscussionId` returns. -/
structure CommentView where
  _id : String
  userId : String
  discussId : String
  description : String
  upVote : Int
  createdAt : Nat
  createdBy : String
  isLikedByCurrentUser : Bool
deriving Repr, DecidableEq

/-- The body of the `.map` in `getCommentByDiscussionId`:
`comment.userId.toString()` (no `?.`) throws when the author did not
resolve; otherwise `createdBy` is `comment.userId?.fullName || "Unknown
User"`, and `isLikedByCurrentUser` uses the truthiness-guarded ternary. -/
def commentView (db : DB) (currentUserId : Option String) (c : Comment) :
    Except JSError CommentView :=
  match findUserById db c.userId with
  | none => .error (.error "Cannot read properties of null (reading 'toString')")
  | some author =>
      .ok { _id := c._id,
            userId := c.userId,
            discussId := c.discussId,
            description := c.description,
            upVote := c.upVote,
            createdAt := c.createdAt,
            createdBy := if author.fullName = "" then "Unknown User"
                         else author.fullName,
            isLikedByCurrentUser :=
              match currentUserId with
              | some uid => if uid = "" then false else memberLike uid c.likedBy
              | none => false }

/-- `getCommentByDiscussionId(discussId)` from `comment.actions.ts`:
`find({ discussId })` sorted by `createdAt: 1` (oldest first), mapped; any
thrown error is caught and the function returns `[]`. -/
def getCommentByDiscussionId (fail : Option JSError) (db : DB)
    (currentUserId : Option String) (discussId : String) : List CommentView :=
  match fail with
  | some _ => []
  | none =>
      match (sortBy (fun a b => a.createdAt ≤ b.createdAt)
               (db.comments.filter (fun c => c.discussId == discussId))).mapM
              (commentView db currentUserId) with
      | .ok l => l
      | .error _ => []

/-- JavaScript `String.prototype.trim` (as invoked by zod's `.trim()`
transform and by the actions' truthiness guards): removes leading and
trailing whitespace. -/
def jsTrim (s : String) : String :=
  String.mk (((s.toList.dropWhile Char.isWhitespace).reverse.dropWhile
    Char.isWhitespace).reverse)

/-- One zod string chain `.min(minLen, minMsg).max(maxLen, maxMsg).trim()`
from `app/lib/validations.ts`: the length checks run on the *raw* string in
chain order, collecting every failed check's message; the `.trim()`
transform is the last link of the chain and only affects the output value. -/
def zodMinMaxTrim (minLen maxLen : Nat) (minMsg maxMsg : String)
    (s : String) : List String × String :=
  ((if s.length < minLen then [minMsg] else []) ++
   (if s.length > maxLen then [maxMsg] else []),
   jsTrim s)

/-- The parsed output of `createDiscussionSchema`. -/
structure DiscussionInput where
  title : String
  description : String
deriving Repr, DecidableEq

/-- `createDiscussionSchema.safeParse({title, description})`: fields are
checked in declaration order (title, then description), the issues of all
fields are collected in order, and `safeParse` succeeds iff no check failed,
returning the transformed (trimmed) values. -/
def createDiscussionSchemaParse (title description : String) :
    Except (List String) DiscussionInput :=
  let t := zodMinMaxTrim 3 200 "Must not be less than 3 characters"
             "Must not be more than 200 characters" title
  let d := zodMinMaxTrim 3 1000 "Must not be less than 3 characters"
             "Must not be more than 1000 characters" description
  if (t.1 ++ d.1).isEmpty then .ok { title := t.2, description := d.2 }
  else .error (t.1 ++ d.1)

/-- The parsed output of `createCommentSchema`. -/
structure CommentInput where
  description : String
deriving Repr, DecidableEq

/-- `createCommentSchema.safeParse({description})`. -/
def createCommentSchemaParse (description : String) :
    Except (List String) CommentInput :=
  let d := zodMinMaxTrim 1 2000 "Comment cannot be empty"
             "Comment must not exceed 2000 characters" description
  if d.1.isEmpty then .ok { description := d.2 }
  else .error d.1

/-- A character admitted anywhere in the local part of zod's email regex
(`[A-Za-z0-9_'+\-.]`). -/
def zodEmailLocalChar (c : Char) : Bool :=
  c.isAlphanum || c = '_' || c = '\'' || c = '+' || c = '-' || c = '.'

/-- A character admitted as the *last* character of the local part
(`[A-Za-z0-9_+-]`, no dot, no apostrophe). -/
def zodEmailLocalLastChar (c : Char) : Bool :=
  c.isAlphanum || c = '_' || c = '+' || c = '-'

/-- One domain label before the TLD (`[A-Za-z0-9][A-Za-z0-9-]*`). -/
def zodEmailLabelOk (l : List Char) : Bool :=
  match l with
  | [] => false
  | c :: cs => c.isAlphanum && cs.all (fun x => x.isAlphanum || x = '-')

/-- The TLD (`[A-Za-z]{2,}`). -/
def zodEmailTldOk (l : List Char) : Bool :=
  decide (2 ≤ l.length) && l.all (fun c => c.isAlpha)

/-- Splits a character list at every occurrence of `sep` (the effect of
`String.splitOn` with a one-character separator). -/
def splitChar (sep : Char) : List Char → List (List Char)
  | [] => [[]]
  | c :: cs =>
      let r := splitChar sep cs
      if c = sep then [] :: r
      else
        match r with
        | [] => [[c]]
        | h :: t => (c :: h) :: t

/-- Whether the character list contains two consecutive dots. -/
def hasDoubleDot : List Char → Bool
  | [] => false
  | [_] => false
  | c :: d :: rest => (c = '.' && d = '.') || hasDoubleDot (d :: rest)

/-- zod's `z.string().email()` test, a transcription of its email regex
`^(?!\.)(?!.*\.\.)([A-Za-z0-9_'+\-.]*)[A-Za-z0-9_+-]@([A-Za-z0-9][A-Za-z0-9-]*\.)+[A-Za-z]{2,}$`
(case-insensitive): the whole string must not start with a dot nor contain
two consecutive dots; the local part is non-empty with an admitted last
character; the domain is one or more labels followed by an alphabetic TLD of
length at least two. -/
def zodEmailCheck (s : String) : Bool :=
  let cs := s.toList
  (match cs with
   | '.' :: _ => false
   | _ => true) &&
  !(hasDoubleDot cs) &&
  (match splitChar '@' cs with
   | [lp, dom] =>
       (match lp.getLast? with
        | none => false
        | some c => lp.all zodEmailLocalChar && zodEmailLocalLastChar c) &&
       (let labels := splitChar '.' dom
        match labels.getLast? with
        | none => false
        | some tld =>
            decide (2 ≤ labels.length) &&
            labels.dropLast.all zodEmailLabelOk && zodEmailTldOk tld)
   | _ => false)

/-- The `fullName` chain of `userResgistrationSchema`
(`.min(3).max(30).trim()`): issues collected on the raw string. -/
def fullNameIssues (s : String) : List String :=
  (zodMinMaxTrim 3 30 "Full name should be more than 3 characters"
    "Full name should not be more than 30 characters" s).1

/-- The `email` chain (`.email(...)`, no trim). -/
def emailIssues (s : String) : List String :=
  if zodEmailCheck s then [] else ["Invalid email address"]

/-- The `password` chain (`.min(8).regex(...)×4`, no trim): every failed
check contributes its message, in chain order. -/
def passwordIssues (s : String) : List String :=
  (if s.length < 8 then ["Password should be 8 or more characters long"] else []) ++
  (if s.toList.any (fun c => c.isUpper) then []
   else ["Password must contain atleast one uppercase letter"]) ++
  (if s.toList.any (fun c => c.isLower) then []
   else ["Password must contain atleast one lowercase letter"]) ++
  (if s.toList.any (fun c => c.isDigit) then []
   else ["Password must contain atleast one number"]) ++
  (if s.toList.any (fun c => !c.isAlphanum) then []
   else ["Password must contain at least one special character"])

/-- The parsed output of `userResgistrationSchema` (only `fullName` carries a
`.trim()` transform). -/
structure RegistrationInput where
  fullName : String
  email : String
  password : String
deriving Repr, DecidableEq

/-- `userResgistrationSchema.safeParse({email, password, fullName})`: fields
are checked in the schema's declaration order — fullName, email, password —
and the issues concatenated in that order. -/
def userResgistrationSchemaParse (email password fullName : String) :
    Except (List String) RegistrationInput :=
  if (fullNameIssues fullName ++ emailIssues email ++ passwordIssues password).isEmpty then
    .ok { fullName := jsTrim fullName, email := email, password := password }
  else .error (fullNameIssues fullName ++ emailIssues email ++ passwordIssues password)

/-- The `data` object of a successful `addDiscussion`. -/
structure DiscussionData where
  _id : String
  userId : String
  title : String
  description : String
  upVote : Int
  createdAt : Nat
deriving Repr, DecidableEq

/-- The result object of `addDiscussion`; a `none` at the outer `Option`
models the code path that ends without a `return` statement (JS
`undefined`). -/
structure AddResult where
  success : Bool
  error : Option String
  data : Option DiscussionData
deriving Repr, DecidableEq

/-- `addDiscussion(title, description, userId)` from
`discussion.actions.ts`: zod validation first (returning
`validation.error.issues[0].message` on failure), then the whitespace guard
(`!title?.trim() || !description?.trim()`), then the store write inside
`try`; the `catch` returns `{success: false, error: err.message}` for an
`Error` and only logs otherwise, falling through to `undefined`.  `newId`
and `now` stand for the store-assigned id and timestamp. -/
def addDiscussion (fail : Option JSError) (db : DB)
    (title description userId : String) (newId : String) (now : Nat) :
    Option AddResult × DB :=
  match createDiscussionSchemaParse title description with
  | .error issues =>
      (some { success := false, error := some (issues.headD ""), data := none }, db)
  | .ok data =>
      if jsTrim title = "" ∨ jsTrim description = "" then
        (some { success := false, error := some "Both the feilds are required",
                data := none }, db)
      else
        match fail with
        | some (.error m) =>
            (some { success := false, error := some m, data := none }, db)
        | some .nonError => (none, db)
        | none =>
            let d : Discussion :=
              { _id := newId, userId := userId, title := data.title,
                description := data.description, upVote := 0,
                likedBy := [], createdAt := now }
            (some { success := true, error := none,
                    data := some { _id := d._id, userId := d.userId,
                                   title := d.title,
                                   description := d.description,
                                   upVote := d.upVote,
                                   createdAt := d.createdAt } },
             { db with discussions := db.discussions ++ [d] })

/-- The result object of `createDiscussAccount` (`{success}` or
`{success, error}`); `none` models the no-`return` fall-through. -/
structure RegisterResult where
  success : Bool
  error : Option String
deriving Repr, DecidableEq

/-- `createDiscussAccount(email, password, fullName)` from
`auth.actions.ts`: zod validation first, then inside `try` the duplicate
check and the insert with the bcrypt hash (modelled by `hash`); the `catch`
only handles `ZodError` — a store failure is not a `ZodError`, so it is
logged and the function returns `undefined`. -/
def createDiscussAccount (fail : Option JSError) (db : DB)
    (hash : String → String) (email password fullName : String)
    (newId : String) : Option RegisterResult × DB :=
  match userResgistrationSchemaParse email password fullName with
  | .error issues =>
      (some { success := false, error := some (issues.headD "") }, db)
  | .ok data =>
      match fail with
      | some _ => (none, db)
      | none =>
          match findUserByEmail db data.email with
          | some _ =>
              (some { success := false, error := some "User already exists" }, db)
          | none =>
              (some { success := true, error := none },
               { db with users := db.users ++
                   [{ _id := newId, email := data.email,
                      password := hash data.password,
                      fullName := data.fullName }] })

/-- A title of untrimmed length 201 whose trimmed length is 200. -/
def longTitle : String :=
  String.mk (List.replicate 200 'a') ++ " "

end Discuss

namespace Discuss

theorem filter_ne_eq_self {α : Type} [DecidableEq α] (l : List α) (a : α)
    (h : a ∉ l) : l.filter (fun x => x ≠ a) = l := by
  induction l with
  | nil => rfl
  | cons b bs ih =>
    simp only [List.mem_cons, not_or] at h
    rw [List.filter_cons]
    have hb : (decide (b ≠ a)) = true :=
      decide_eq_true (fun hba => h.1 hba.symm)
    rw [if_pos hb, ih h.2]

theorem length_filter_ne_of_nodup {α : Type} [DecidableEq α]
    (l : List α) (a : α) (hnd : l.Nodup) (ha : a ∈ l) :
    (l.filter (fun x => x ≠ a)).length + 1 = l.length := by
  induction l with
  | nil => cases ha
  | cons b bs ih =>
    rw [List.nodup_cons] at hnd
    rw [List.filter_cons]
    by_cases hba : b = a
    · subst hba
      have : (decide (b ≠ b)) = false := by simp
      rw [if_neg (by simp)]
      rw [filter_ne_eq_self bs b hnd.1]
      simp
    · have : a ∈ bs := by
        rcases List.mem_cons.mp ha with h | h
        · exact absurd h.symm hba
        · exact h
      rw [if_pos (by simp [hba])]
      simp only [List.length_cons]
      rw [← ih hnd.2 this]

theorem nodup_filter_ne {α : Type} [DecidableEq α] (l : List α) (a : α)
    (hnd : l.Nodup) : (l.filter (fun x => x ≠ a)).Nodup :=
  hnd.filter _

theorem nodup_append_fresh {α : Type} [DecidableEq α] (l : List α) (a : α)
    (hnd : l.Nodup) (ha : a ∉ l) : (l ++ [a]).Nodup := by
  rw [List.nodup_append]
  exact ⟨hnd, List.nodup_singleton a, by simp [List.disjoint_singleton, ha]⟩

theorem likeInv_toggle (u : String) (upVote : Int) (l : List (Option String))
    (h : LikeInv upVote l) :
    LikeInv (if memberLike u l then (pullLikeFields (some u) upVote l).1
             else (pushLikeFields (some u) upVote l).1)
            (if memberLike u l then (pullLikeFields (some u) upVote l).2
             else (pushLikeFields (some u) upVote l).2) := by
  obtain ⟨hlen, hnd⟩ := h
  by_cases hm : memberLike u l
  · have hmem : (some u) ∈ l := by
      simpa [memberLike] using hm
    have hl := length_filter_ne_of_nodup l (some u) hnd hmem
    simp only [hm, if_pos, pullLikeFields, LikeInv]
    constructor
    · rw [hlen]
      omega
    · exact nodup_filter_ne l (some u) hnd
  · have hmem : (some u) ∉ l := by
      simpa [memberLike] using hm
    simp only [hm, if_neg, pushLikeFields, LikeInv]
    constructor
    · simp [hlen]
    · exact nodup_append_fresh l (some u) hnd hmem

theorem reachableDiscussion_inv (d : Discussion) (h : ReachableDiscussion d) :
    LikeInv d.upVote d.likedBy := by
  induction h with
  | created id uid title description now =>
    exact ⟨rfl, List.nodup_nil⟩
  | toggled u d _ ih =>
    have := likeInv_toggle u d.upVote d.likedBy ih
    unfold toggleStepDiscussion
    by_cases hm : memberLike u d.likedBy
    · simpa [hm] using this
    · simpa [hm] using this

theorem reachableComment_inv (c : Comment) (h : ReachableComment c) :
    LikeInv c.upVote c.likedBy := by
  induction h with
  | created id did uid description now =>
    exact ⟨rfl, List.nodup_nil⟩
  | toggled u c _ ih =>
    have := likeInv_toggle u c.upVote c.likedBy ih
    unfold toggleStepComment
    by_cases hm : memberLike u c.likedBy
    · simpa [hm] using this
    · simpa [hm] using this

theorem find?_map_update {α : Type} (p : α → Bool) (f : α → α) (l : List α)
    (a : α) (h : l.find? p = some a) (hf : p (f a) = true) :
    (l.map (fun x => if p x then f x else x)).find? p = some (f a) := by
  induction l with
  | nil => cases h
  | cons b bs ih =>
    by_cases hb : p b
    · rw [List.find?_cons_of_pos _ hb] at h
      injection h with h
      subst h
      simp only [List.map_cons, if_pos hb]
      exact List.find?_cons_of_pos _ hf
    · rw [List.find?_cons_of_neg _ hb] at h
      simp only [List.map_cons, if_neg hb]
      rw [List.find?_cons_of_neg _ hb]
      exact ih h

theorem findDiscussionById_id (db : DB) (id : String) (d : Discussion)
    (h : findDiscussionById db id = some d) : d._id = id := by
  have := List.find?_some h
  simpa using this

theorem findCommentById_id (db : DB) (id : String) (c : Comment)
    (h : findCommentById db id = some c) : c._id = id := by
  have := List.find?_some h
  simpa using this

theorem findDiscussionByIdAndUpdate_found (db : DB) (id : String)
    (d : Discussion) (f : Discussion → Discussion)
    (h : findDiscussionById db id = some d) (hid : (f d)._id = d._id) :
    findDiscussionByIdAndUpdate db id f = (some (f d),
      { db with discussions :=
          db.discussions.map (fun x => if x._id == id then f x else x) }) ∧
    findDiscussionById (findDiscussionByIdAndUpdate db id f).2 id = some (f d) := by
  have hdid : d._id = id := findDiscussionById_id db id d h
  have h1 : findDiscussionByIdAndUpdate db id f = (some (f d),
      { db with discussions :=
          db.discussions.map (fun x => if x._id == id then f x else x) }) := by
    unfold findDiscussionByIdAndUpdate
    rw [h]
  refine ⟨h1, ?_⟩
  rw [h1]
  unfold findDiscussionById at h ⊢
  exact find?_map_update _ f db.discussions d h (by simp [hid, hdid])

theorem findCommentByIdAndUpdate_found (db : DB) (id : String)
    (c : Comment) (f : Comment → Comment)
    (h : findCommentById db id = some c) (hid : (f c)._id = c._id) :
    findCommentByIdAndUpdate db id f = (some (f c),
      { db with comments :=
          db.comments.map (fun x => if x._id == id then f x else x) }) ∧
    findCommentById (findCommentByIdAndUpdate db id f).2 id = some (f c) := by
  have hcid : c._id = id := findCommentById_id db id c h
  have h1 : findCommentByIdAndUpdate db id f = (some (f c),
      { db with comments :=
          db.comments.map (fun x => if x._id == id then f x else x) }) := by
    unfold findCommentByIdAndUpdate
    rw [h]
  refine ⟨h1, ?_⟩
  rw [h1]
  unfold findCommentById at h ⊢
  exact find?_map_update _ f db.comments c h (by simp [hid, hcid])

theorem memberLike_append_other (u1 u2 : String) (h : u1 ≠ u2) :
    ∀ l : List (Option String), memberLike u1 (l ++ [some u2]) = memberLike u1 l := by
  intro l
  simp [memberLike, h]

theorem pushWrite_eq (u : String) (d : Discussion) :
    likeWritePhase u false d =
      { d with upVote := d.upVote + 1, likedBy := d.likedBy ++ [some u] } := by
  simp [likeWritePhase, toggleUpdateDiscussion, pushLikeFields]

theorem perm_insertBy {α : Type} (le : α → α → Bool) (a : α) (l : List α) :
    List.Perm (insertBy le a l) (a :: l) := by
  induction l with
  | nil => exact List.Perm.refl _
  | cons b bs ih =>
    unfold insertBy
    by_cases h : le a b
    · rw [if_pos h]
    · rw [if_neg h]
      exact (ih.cons b).trans (List.Perm.swap a b bs)

theorem perm_sortBy {α : Type} (le : α → α → Bool) (l : List α) :
    List.Perm (sortBy le l) l := by
  induction l with
  | nil => exact List.Perm.refl _
  | cons b bs ih =>
    show List.Perm (insertBy le b (sortBy le bs)) (b :: bs)
    exact (perm_insertBy le b (sortBy le bs)).trans (ih.cons b)

theorem pairwise_insertBy {α : Type} (R : α → α → Prop) (le : α → α → Bool)
    (hle : ∀ a b, le a b = true → R a b)
    (htot : ∀ a b, le a b = false → R b a)
    (htrans : ∀ a b c, R a b → R b c → R a c)
    (a : α) (l : List α) (hl : List.Pairwise R l) :
    List.Pairwise R (insertBy le a l) := by
  induction l with
  | nil => exact List.pairwise_singleton R a
  | cons b bs ih =>
    rw [List.pairwise_cons] at hl
    unfold insertBy
    by_cases h : le a b
    · rw [if_pos h]
      rw [List.pairwise_cons]
      refine ⟨?_, List.Pairwise.cons hl.1 hl.2⟩
      intro x hx
      rcases List.mem_cons.mp hx with hxb | hxbs
      · subst hxb
        exact hle _ _ h
      · exact htrans a b x (hle a b h) (hl.1 x hxbs)
    · rw [if_neg h]
      rw [List.pairwise_cons]
      refine ⟨?_, ih hl.2⟩
      intro x hx
      rcases List.mem_cons.mp ((perm_insertBy le a bs).mem_iff.mp hx) with rfl | hxbs
      · exact htot _ _ (by simpa using h)
      · exact hl.1 x hxbs

theorem pairwise_sortBy {α : Type} (R : α → α → Prop) (le : α → α → Bool)
    (hle : ∀ a b, le a b = true → R a b)
    (htot : ∀ a b, le a b = false → R b a)
    (htrans : ∀ a b c, R a b → R b c → R a c)
    (l : List α) : List.Pairwise R (sortBy le l) := by
  induction l with
  | nil => exact List.Pairwise.nil
  | cons b bs ih =>
    show List.Pairwise R (insertBy le b (sortBy le bs))
    exact pairwise_insertBy R le hle htot htrans b (sortBy le bs) ih

theorem mapM_except_error_of_mem {α β ε : Type} (f : α → Except ε β)
    (l : List α) (a : α) (ha : a ∈ l) (e : ε) (he : f a = .error e) :
    ∃ e2, l.mapM f = Except.error e2 := by
  induction l with
  | nil => cases ha
  | cons b bs ih =>
    rw [List.mapM_cons]
    match hfb : f b with
    | .error e3 => exact ⟨e3, rfl⟩
    | .ok y =>
        rcases List.mem_cons.mp ha with rfl | hbs
        · rw [hfb] at he
          cases he
        · obtain ⟨e2, h2⟩ := ih hbs
          rw [h2]
          exact ⟨e2, rfl⟩

theorem mapM_commentView_ok (db : DB) (s : Option String) (l : List Comment)
    (h : ∀ c ∈ l, (findUserById db c.userId).isSome) :
    ∃ out : List CommentView, l.mapM (commentView db s) = Except.ok out ∧
      out.map (fun v => (v._id, v.createdAt)) =
        l.map (fun c => (c._id, c.createdAt)) := by
  induction l with
  | nil => exact ⟨[], rfl, rfl⟩
  | cons c cs ih =>
    obtain ⟨author, hauthor⟩ :=
      Option.isSome_iff_exists.mp (h c (List.mem_cons_self c cs))
    obtain ⟨out, hout, hmap⟩ := ih (fun x hx => h x (List.mem_cons_of_mem c hx))
    have hview : ∃ v : CommentView, commentView db s c = Except.ok v ∧
        v._id = c._id ∧ v.createdAt = c.createdAt := by
      unfold commentView
      rw [hauthor]
      exact ⟨_, rfl, rfl, rfl⟩
    obtain ⟨v, hv, hvid, hvca⟩ := hview
    refine ⟨v :: out, ?_, ?_⟩
    · rw [List.mapM_cons, hv, hout]
      rfl
    · simp [hmap, hvid, hvca]

end Discuss

/-- **C1.** For every discussion and every comment reachable through the app's
write paths (creation initialises `upVote 0` with empty `likedBy`; each
logged-in toggle adds or removes exactly one voter id together with a ±1
counter change), the counter equals the cardinality of the deduplicated
voter-id set, and `likedBy` never contains a duplicate entry. -/
theorem C1_upvote_equals_voter_set_cardinality :
    (∀ d : Discuss.Discussion, Discuss.ReachableDiscussion d →
       d.likedBy.Nodup ∧ d.upVote = (d.likedBy.dedup.length : Int)) ∧
    (∀ c : Discuss.Comment, Discuss.ReachableComment c →
       c.likedBy.Nodup ∧ c.upVote = (c.likedBy.dedup.length : Int)) := by
  constructor
  · intro d h
    obtain ⟨hlen, hnd⟩ := Discuss.reachableDiscussion_inv d h
    refine ⟨hnd, ?_⟩
    rw [hnd.dedup]
    exact hlen
  · intro c h
    obtain ⟨hlen, hnd⟩ := Discuss.reachableComment_inv c h
    refine ⟨hnd, ?_⟩
    rw [hnd.dedup]
    exact hlen

/-- **C4.** For a discussion that exists and a logged-in user who has not yet
liked it, two consecutive `toggleLike` calls return the counter to its
original value and restore the stored document exactly; the returned `likedBy`
boolean alternates `true` then `false`; and each call returns the
post-operation stored counter value, not a caller-side guess. -/
theorem C4_double_toggle_returns_to_original (db : Discuss.DB) (id : String)
    (d : Discuss.Discussion) (u : String)
    (hd : Discuss.findDiscussionById db id = some d)
    (hnot : Discuss.memberLike u d.likedBy = false) :
    let t1 := Discuss.toggleLike none db (some u) id
    let t2 := Discuss.toggleLike none t1.2.1 (some u) id
    t1.1.success = true ∧ t1.1.likedBy = true ∧ t1.1.upVote = d.upVote + 1 ∧
    (Discuss.findDiscussionById t1.2.1 id).map (fun x => x.upVote) =
      some t1.1.upVote ∧
    t2.1.success = true ∧ t2.1.likedBy = false ∧ t2.1.upVote = d.upVote ∧
    Discuss.findDiscussionById t2.2.1 id = some d ∧
    (Discuss.findDiscussionById t2.2.1 id).map (fun x => x.upVote) =
      some t2.1.upVote := by
  intro t1 t2
  have husome : (some u) ∉ d.likedBy := by
    simpa [Discuss.memberLike] using hnot
  -- first toggle: the membership test is false, so the $push/$inc:+1 update runs
  have hid1 : (Discuss.toggleUpdateDiscussion false (some u) d)._id = d._id := by
    simp [Discuss.toggleUpdateDiscussion, Discuss.pushLikeFields]
  obtain ⟨h1eq, h1find⟩ :=
    Discuss.findDiscussionByIdAndUpdate_found db id d
      (Discuss.toggleUpdateDiscussion false (some u)) hd hid1
  have e1 : t1 =
      ({ success := true, error := none,
         upVote := (Discuss.toggleUpdateDiscussion false (some u) d).upVote,
         likedBy := true },
       (Discuss.findDiscussionByIdAndUpdate db id
          (Discuss.toggleUpdateDiscussion false (some u))).2,
       [.findById id, .findByIdAndUpdate id false (some u)]) := by
    show Discuss.toggleLike none db (some u) id = _
    unfold Discuss.toggleLike
    rw [hd]
    simp only [hnot, h1eq, Discuss.jsOrZero, Option.map_some', Bool.not_false]
  have hup1 : (Discuss.toggleUpdateDiscussion false (some u) d).upVote =
      d.upVote + 1 := by
    simp [Discuss.toggleUpdateDiscussion, Discuss.pushLikeFields]
  -- second toggle: the pushed entry makes the membership test true, so the
  -- $pull/$inc:-1 update runs and returns the document to its original state
  have hmem2 : Discuss.memberLike u
      (Discuss.toggleUpdateDiscussion false (some u) d).likedBy = true := by
    simp [Discuss.toggleUpdateDiscussion, Discuss.pushLikeFields,
      Discuss.memberLike]
  have hrestore : Discuss.toggleUpdateDiscussion true (some u)
      (Discuss.toggleUpdateDiscussion false (some u) d) = d := by
    unfold Discuss.toggleUpdateDiscussion
    simp only [if_pos, if_neg, Bool.false_eq_true, reduceIte,
      Discuss.pushLikeFields, Discuss.pullLikeFields]
    have hfilter : ((d.likedBy ++ [some u]).filter (fun x => x ≠ some u)) =
        d.likedBy := by
      rw [List.filter_append, Discuss.filter_ne_eq_self d.likedBy (some u) husome]
      simp
    simp only [hfilter]
    have hfilter2 : List.filter (fun x => !decide (x = some u)) d.likedBy =
        d.likedBy := by
      simpa using Discuss.filter_ne_eq_self d.likedBy (some u) husome
    simp [hfilter2]
  have hid2 : (Discuss.toggleUpdateDiscussion true (some u)
      (Discuss.toggleUpdateDiscussion false (some u) d))._id =
      (Discuss.toggleUpdateDiscussion false (some u) d)._id := by
    rw [hrestore]
    exact hid1.symm
  obtain ⟨h2eq, h2find⟩ :=
    Discuss.findDiscussionByIdAndUpdate_found t1.2.1 id
      (Discuss.toggleUpdateDiscussion false (some u) d)
      (Discuss.toggleUpdateDiscussion true (some u))
      (by rw [e1]; exact h1find) hid2
  have e2 : t2 =
      ({ success := true, error := none,
         upVote := d.upVote,
         likedBy := false },
       (Discuss.findDiscussionByIdAndUpdate t1.2.1 id
          (Discuss.toggleUpdateDiscussion true (some u))).2,
       [.findById id, .findByIdAndUpdate id true (some u)]) := by
    show Discuss.toggleLike none t1.2.1 (some u) id = _
    unfold Discuss.toggleLike
    rw [show Discuss.findDiscussionById t1.2.1 id =
          some (Discuss.toggleUpdateDiscussion false (some u) d) by
        rw [e1]; exact h1find]
    simp only [hmem2, h2eq, Discuss.jsOrZero, Option.map_some', hrestore, Bool.not_true]
  refine ⟨by rw [e1], by rw [e1], by rw [e1]; exact hup1, ?_, by rw [e2],
    by rw [e2], by rw [e2], ?_, ?_⟩
  · rw [show Discuss.findDiscussionById t1.2.1 id =
          some (Discuss.toggleUpdateDiscussion false (some u) d) by
        rw [e1]; exact h1find]
    rw [e1]
    rfl
  · have := h2find
    rw [hrestore] at this
    rw [show t2.2.1 = (Discuss.findDiscussionByIdAndUpdate t1.2.1 id
          (Discuss.toggleUpdateDiscussion true (some u))).2 by rw [e2]]
    exact this
  · have := h2find
    rw [hrestore] at this
    rw [show t2.2.1 = (Discuss.findDiscussionByIdAndUpdate t1.2.1 id
          (Discuss.toggleUpdateDiscussion true (some u))).2 by rw [e2]]
    rw [this, e2]
    rfl

/-- Witness for C4: the double toggle on the concrete store `sampleDb` by user
`u1` starting from an unliked discussion. -/
theorem C4_witness :
    let t1 := Discuss.toggleLike none Discuss.sampleDb (some "u1") "d1"
    let t2 := Discuss.toggleLike none t1.2.1 (some "u1") "d1"
    t1.1.success = true ∧ t1.1.likedBy = true ∧ t1.1.upVote = 0 + 1 ∧
    (Discuss.findDiscussionById t1.2.1 "d1").map (fun x => x.upVote) =
      some t1.1.upVote ∧
    t2.1.success = true ∧ t2.1.likedBy = false ∧ t2.1.upVote = 0 ∧
    Discuss.findDiscussionById t2.2.1 "d1" =
      some { _id := "d1", userId := "u1", title := "Hi There",
             description := "This is a test discussion body",
             upVote := 0, likedBy := [], createdAt := 5 } ∧
    (Discuss.findDiscussionById t2.2.1 "d1").map (fun x => x.upVote) =
      some t2.1.upVote :=
  C4_double_toggle_returns_to_original Discuss.sampleDb "d1"
    { _id := "d1", userId := "u1", title := "Hi There",
      description := "This is a test discussion body",
      upVote := 0, likedBy := [], createdAt := 5 } "u1"
    (by rfl) (by rfl)

/-- Witness for C1: the concrete state reached by creating a discussion and a
comment and toggling each once satisfies the invariant. -/
theorem C1_witness :
    (Discuss.toggleStepDiscussion "alice"
        (Discuss.newDiscussion "d1" "u1" "Hi There" "body" 0)).likedBy.Nodup ∧
    (Discuss.toggleStepDiscussion "alice"
        (Discuss.newDiscussion "d1" "u1" "Hi There" "body" 0)).upVote =
      ((Discuss.toggleStepDiscussion "alice"
        (Discuss.newDiscussion "d1" "u1" "Hi There" "body" 0)).likedBy.dedup.length : Int) := by
  exact C1_upvote_equals_voter_set_cardinality.1 _
    (Discuss.ReachableDiscussion.toggled "alice" _
      (Discuss.ReachableDiscussion.created "d1" "u1" "Hi There" "body" 0))

/-- **C2, counterexample.** At a concrete store and logged-in user, one
`toggleLike` call issues two sequential store operations — a `findById` read
from which the caller computes the membership test, followed by a separate
`findByIdAndUpdate` write — not one single atomic store-level operation
combining the membership test with the mutation. -/
theorem C2_counterexample_two_store_calls :
    (Discuss.toggleLike none Discuss.sampleDb (some "alice") "d1").2.2 =
      [Discuss.StoreOp.findById "d1",
       Discuss.StoreOp.findByIdAndUpdate "d1" false (some "alice")] ∧
    (Discuss.toggleLike none Discuss.sampleDb (some "alice") "d1").2.2.length ≠ 1 := by
  exact ⟨by decide, by decide⟩

/-- **C2, amended.** Every toggle with a logged-in user on an existing content
item issues exactly two sequential store operations: a `findById` read whose
result decides the membership test at the caller, then one single atomic
update combining the set mutation with the counter change (`$pull`/`$push`
with `$inc` in one `findByIdAndUpdate`); and despite the caller-side read,
two concurrent toggles by two *different* users who had not liked the item
are both reflected in the final counter (+2) under every interleaving of
their read and write phases. -/
theorem C2_amended_toggle_atomicity :
    (∀ (db : Discuss.DB) (id : String) (d : Discuss.Discussion) (u : String),
       Discuss.findDiscussionById db id = some d →
       (Discuss.toggleLike none db (some u) id).2.2 =
         [Discuss.StoreOp.findById id,
          Discuss.StoreOp.findByIdAndUpdate id (Discuss.memberLike u d.likedBy) (some u)]) ∧
    (∀ (db : Discuss.DB) (id : String) (c : Discuss.Comment) (u : String),
       Discuss.findCommentById db id = some c →
       (Discuss.toggleCommentLike none db (some u) id).2.2 =
         [Discuss.StoreOp.findById id,
          Discuss.StoreOp.findByIdAndUpdate id (Discuss.memberLike u c.likedBy) (some u)]) ∧
    (∀ (s : Discuss.Sched2) (d : Discuss.Discussion) (u1 u2 : String),
       u1 ≠ u2 →
       Discuss.memberLike u1 d.likedBy = false →
       Discuss.memberLike u2 d.likedBy = false →
       (Discuss.runSched2 s u1 u2 d).upVote = d.upVote + 2 ∧
       Discuss.memberLike u1 (Discuss.runSched2 s u1 u2 d).likedBy = true ∧
       Discuss.memberLike u2 (Discuss.runSched2 s u1 u2 d).likedBy = true) := by
  refine ⟨?_, ?_, ?_⟩
  · intro db id d u hd
    unfold Discuss.toggleLike
    rw [hd]
  · intro db id c u hc
    unfold Discuss.toggleCommentLike
    rw [hc]
  · intro s d u1 u2 hne h1 h2
    have hne' : u2 ≠ u1 := Ne.symm hne
    cases s
    all_goals
      simp only [Discuss.runSched2, Discuss.likeReadPhase, h1, h2,
        Discuss.pushWrite_eq, Discuss.memberLike_append_other u1 u2 hne,
        Discuss.memberLike_append_other u2 u1 hne']
    all_goals
      refine ⟨by omega, ?_, ?_⟩ <;> simp [Discuss.memberLike]

/-- Witness for C2 (amended): at the concrete store, the discussion toggle
and the comment toggle each issue the read-then-atomic-update pair, and one
concrete interleaving of two fresh users ends with the counter at +2. -/
theorem C2_amended_witness :
    (Discuss.toggleLike none Discuss.sampleDb (some "u1") "d1").2.2 =
      [Discuss.StoreOp.findById "d1",
       Discuss.StoreOp.findByIdAndUpdate "d1" false (some "u1")] ∧
    (Discuss.toggleCommentLike none Discuss.sampleDb (some "u1") "c1").2.2 =
      [Discuss.StoreOp.findById "c1",
       Discuss.StoreOp.findByIdAndUpdate "c1" false (some "u1")] ∧
    ((Discuss.runSched2 .r1w1r2w2 "alice" "bob"
        { _id := "d1", userId := "u1", title := "Hi There",
          description := "This is a test discussion body",
          upVote := 0, likedBy := [], createdAt := 5 }).upVote = 0 + 2 ∧
     Discuss.memberLike "alice" (Discuss.runSched2 .r1w1r2w2 "alice" "bob"
        { _id := "d1", userId := "u1", title := "Hi There",
          description := "This is a test discussion body",
          upVote := 0, likedBy := [], createdAt := 5 }).likedBy = true ∧
     Discuss.memberLike "bob" (Discuss.runSched2 .r1w1r2w2 "alice" "bob"
        { _id := "d1", userId := "u1", title := "Hi There",
          description := "This is a test discussion body",
          upVote := 0, likedBy := [], createdAt := 5 }).likedBy = true) := by
  refine ⟨?_, ?_, ?_⟩
  · have h := C2_amended_toggle_atomicity.1 Discuss.sampleDb "d1"
      { _id := "d1", userId := "u1", title := "Hi There",
        description := "This is a test discussion body",
        upVote := 0, likedBy := [], createdAt := 5 } "u1" (by rfl)
    simpa using h
  · have h := C2_amended_toggle_atomicity.2.1 Discuss.sampleDb "c1"
      { _id := "c1", discussId := "d1", userId := "u1",
        description := "Nice post", upVote := 0, likedBy := [],
        createdAt := 6 } "u1" (by rfl)
    simpa using h
  · exact C2_amended_toggle_atomicity.2.2 .r1w1r2w2 _ "alice" "bob"
      (by decide) (by rfl) (by rfl)

/-- **C3 (code bug).** `toggleLike` performs no check on the session: called
with no authenticated session (`userId` is `undefined`, modelled `none`) it
returns `success: true` with `likedBy: true`, increments the stored counter
and records a `null` entry in `likedBy`; called with an empty-string user id
it likewise succeeds and records `""` as a voter.  The claim (and spec §4.3)
requires the operation to fail with an error and leave the document
unchanged. -/
theorem C3_guest_toggle_succeeds_and_mutates :
    ((Discuss.toggleLike none Discuss.sampleDb none "d1").1.success = true ∧
     (Discuss.toggleLike none Discuss.sampleDb none "d1").1.error = none ∧
     (Discuss.toggleLike none Discuss.sampleDb none "d1").1.upVote = 1 ∧
     (Discuss.toggleLike none Discuss.sampleDb none "d1").1.likedBy = true ∧
     (Discuss.findDiscussionById
        (Discuss.toggleLike none Discuss.sampleDb none "d1").2.1 "d1").map
          (fun d => (d.upVote, d.likedBy)) = some (1, [none])) ∧
    ((Discuss.toggleLike none Discuss.sampleDb (some "") "d1").1.success = true ∧
     (Discuss.toggleLike none Discuss.sampleDb (some "") "d1").1.upVote = 1 ∧
     (Discuss.findDiscussionById
        (Discuss.toggleLike none Discuss.sampleDb (some "") "d1").2.1 "d1").map
          (fun d => (d.upVote, d.likedBy)) = some (1, [some ""])) := by
  exact ⟨⟨by decide, by decide, by decide, by decide, by decide⟩,
         ⟨by decide, by decide, by decide⟩⟩

/-- **C5.** In `authorize`, an unknown email and a known email with a failing
password check produce the identical externally visible outcome — a thrown
`Error("Invalid credentials")` — for every store and every `bcrypt.compare`
behaviour, so the error carries no user-enumeration signal; a correct email
with a matching password yields the user object, and the jwt/session
callbacks carry its id, email and display name into the session. -/
theorem C5_invalid_credentials_indistinguishable :
    (∀ (compare : String → String → Bool) (db : Discuss.DB)
       (e1 p1 e2 p2 : String) (u : Discuss.User),
       e1 ≠ "" → p1 ≠ "" → e2 ≠ "" → p2 ≠ "" →
       Discuss.findUserByEmail db e1 = none →
       Discuss.findUserByEmail db e2 = some u →
       compare p2 u.password = false →
       (Discuss.authorize compare db (some e1) (some p1) =
          Discuss.authorize compare db (some e2) (some p2) ∧
        Discuss.authorize compare db (some e1) (some p1) =
          Discuss.AuthResult.thrown "Invalid credentials")) ∧
    (∀ (compare : String → String → Bool) (db : Discuss.DB)
       (e p : String) (u : Discuss.User) (t : Discuss.Token)
       (s : Discuss.AuthUser),
       e ≠ "" → p ≠ "" →
       Discuss.findUserByEmail db e = some u →
       compare p u.password = true →
       (Discuss.authorize compare db (some e) (some p) =
          Discuss.AuthResult.ok
            { id := u._id, email := u.email, name := u.fullName } ∧
        Discuss.sessionCallback s (Discuss.jwtCallback t
            (some { id := u._id, email := u.email, name := u.fullName })) =
          { id := u._id, email := u.email, name := u.fullName })) := by
  constructor
  · intro compare db e1 p1 e2 p2 u he1 hp1 he2 hp2 hfind1 hfind2 hcmp
    have h1 : Discuss.authorize compare db (some e1) (some p1) =
        Discuss.AuthResult.thrown "Invalid credentials" := by
      unfold Discuss.authorize
      rw [if_neg (by simp [he1, hp1])]
      simp only [Option.getD_some]
      rw [hfind1]
    have h2 : Discuss.authorize compare db (some e2) (some p2) =
        Discuss.AuthResult.thrown "Invalid credentials" := by
      unfold Discuss.authorize
      rw [if_neg (by simp [he2, hp2])]
      simp only [Option.getD_some]
      rw [hfind2]
      simp [hcmp]
    exact ⟨h1.trans h2.symm, h1⟩
  · intro compare db e p u t s he hp hfind hcmp
    constructor
    · unfold Discuss.authorize
      rw [if_neg (by simp [he, hp])]
      simp only [Option.getD_some]
      rw [hfind]
      simp [hcmp]
    · rfl

/-- Witness for C5: with an equality `compare`, the unknown email `b@x.com`
and the wrong password for `a@x.com` produce the same thrown error on the
concrete store, and a correct login yields the stored user's fields. -/
theorem C5_witness :
    (Discuss.authorize (fun p h => p == h) Discuss.sampleDb
        (some "b@x.com") (some "whatever") =
       Discuss.authorize (fun p h => p == h) Discuss.sampleDb
        (some "a@x.com") (some "wrong") ∧
     Discuss.authorize (fun p h => p == h) Discuss.sampleDb
        (some "b@x.com") (some "whatever") =
       Discuss.AuthResult.thrown "Invalid credentials") ∧
    (Discuss.authorize (fun p h => p == h) Discuss.sampleDb
        (some "a@x.com") (some "hash") =
       Discuss.AuthResult.ok
         { id := "u1", email := "a@x.com", name := "A Test" } ∧
     Discuss.sessionCallback { id := "", email := "", name := "" }
        (Discuss.jwtCallback { id := "", email := "", name := "" }
          (some { id := "u1", email := "a@x.com", name := "A Test" })) =
       { id := "u1", email := "a@x.com", name := "A Test" }) := by
  constructor
  · exact C5_invalid_credentials_indistinguishable.1 (fun p h => p == h)
      Discuss.sampleDb "b@x.com" "whatever" "a@x.com" "wrong"
      { _id := "u1", email := "a@x.com", password := "hash",
        fullName := "A Test" }
      (by decide) (by decide) (by decide) (by decide) (by rfl) (by rfl)
      (by decide)
  · exact C5_invalid_credentials_indistinguishable.2 (fun p h => p == h)
      Discuss.sampleDb "a@x.com" "hash"
      { _id := "u1", email := "a@x.com", password := "hash",
        fullName := "A Test" }
      { id := "", email := "", name := "" } { id := "", email := "", name := "" }
      (by decide) (by decide) (by rfl) (by decide)

/-- **C6, counterexample.** With a store whose only discussion is owned by a
user id that resolves to no user: the general feed includes the item but with
`createdBy` undefined (`none`), not the placeholder `"Unknown User"`; and
the own-content listing does not include the item at all — the unguarded
`discussion.userId.toString()` throws, the `catch` fires, and the whole
listing collapses to `[]`. -/
theorem C6_counterexample_author_resolution :
    Discuss.getDiscussions none
        { users := [],
          discussions := [{ _id := "d1", userId := "ghost", title := "T",
                            description := "D", upVote := 0, likedBy := [],
                            createdAt := 5 }],
          comments := [] } none =
      [{ _id := "d1", userId := none, title := "T", description := "D",
         upVote := 0, createdAt := 5, createdBy := none,
         isLikedByCurrentUser := false }] ∧
    Discuss.getMyDiscussions none
        { users := [],
          discussions := [{ _id := "d1", userId := "ghost", title := "T",
                            description := "D", upVote := 0, likedBy := [],
                            createdAt := 5 }],
          comments := [] } "ghost" = [] := by
  exact ⟨by decide, by decide⟩

/-- **C6, amended.** When a discussion's owning user id does not resolve, the
general feed still includes the item without failing, but its author name is
undefined (`none`), not `"Unknown User"`; the user's own-content listing does
not degrade per item: the author-resolution `TypeError` is caught and the
whole listing returns `[]`. -/
theorem C6_amended_author_resolution (db : Discuss.DB) (s : Option String)
    (uid : String) (d : Discuss.Discussion)
    (hd : d ∈ db.discussions)
    (hmiss : Discuss.findUserById db d.userId = none) :
    (∃ v ∈ Discuss.getDiscussions none db s,
        v._id = d._id ∧ v.createdBy = none) ∧
    (d.userId = uid → Discuss.getMyDiscussions none db uid = []) := by
  constructor
  · refine ⟨Discuss.discussionView db s d, ?_, rfl, ?_⟩
    · unfold Discuss.getDiscussions
      exact List.mem_map_of_mem _
        ((Discuss.perm_sortBy _ db.discussions).mem_iff.mpr hd)
    · simp [Discuss.discussionView, hmiss]
  · intro huid
    unfold Discuss.getMyDiscussions
    have hdf : d ∈ db.discussions.filter (fun x => x.userId == uid) := by
      rw [List.mem_filter]
      exact ⟨hd, by simp [huid]⟩
    have hds : d ∈ Discuss.sortBy
        (fun a b => decide (b.createdAt ≤ a.createdAt))
        (db.discussions.filter (fun x => x.userId == uid)) :=
      (Discuss.perm_sortBy _ _).mem_iff.mpr hdf
    have herr : Discuss.myDiscussionView db uid d =
        Except.error (Discuss.JSError.error
          "Cannot read properties of null (reading 'toString')") := by
      unfold Discuss.myDiscussionView
      rw [hmiss]
    obtain ⟨e2, h2⟩ := Discuss.mapM_except_error_of_mem
      (Discuss.myDiscussionView db uid) _ d hds _ herr
    rw [h2]

/-- Witness for C6 (amended) at the concrete orphaned store. -/
theorem C6_amended_witness :
    (∃ v ∈ Discuss.getDiscussions none
        { users := [],
          discussions := [{ _id := "d1", userId := "ghost", title := "T",
                            description := "D", upVote := 0, likedBy := [],
                            createdAt := 5 }],
          comments := [] } none,
        v._id = "d1" ∧ v.createdBy = none) ∧
    ("ghost" = "ghost" → Discuss.getMyDiscussions none
        { users := [],
          discussions := [{ _id := "d1", userId := "ghost", title := "T",
                            description := "D", upVote := 0, likedBy := [],
                            createdAt := 5 }],
          comments := [] } "ghost" = []) :=
  C6_amended_author_resolution
    { users := [],
      discussions := [{ _id := "d1", userId := "ghost", title := "T",
                        description := "D", upVote := 0, likedBy := [],
                        createdAt := 5 }],
      comments := [] } none "ghost"
    { _id := "d1", userId := "ghost", title := "T", description := "D",
      upVote := 0, likedBy := [], createdAt := 5 }
    (by decide) (by rfl)

/-- **C7, counterexample.** A backing-store failure in the listing operation
is swallowed into an empty success result (`[]` — indistinguishable from "no
discussions"), not surfaced as `{success: false, error}`; and a non-`Error`
throw in `addDiscussion` falls through the `catch` without a `return`,
yielding `undefined` rather than a structured failure. -/
theorem C7_counterexample_store_failure_swallowed :
    Discuss.getDiscussions (some (Discuss.JSError.error "connection failed"))
        Discuss.sampleDb none = [] ∧
    (Discuss.addDiscussion (some Discuss.JSError.nonError) Discuss.sampleDb
        "Hi There" "This is a test discussion body" "u1" "d9" 7).1 = none := by
  exact ⟨rfl, by decide⟩

/-- **C7, amended.** The toggle operations surface every backing-store
failure as `{success: false, error: message}`; creation does so only for
`Error`-valued throws and returns `undefined` for other thrown values;
registration returns `undefined` for every store failure (its `catch` only
handles `ZodError`); and the three listing operations swallow store failures
into an empty-list success. -/
theorem C7_amended_failure_surfacing :
    (∀ (e : Discuss.JSError) (db : Discuss.DB) (s : Option String)
       (uid did : String),
       Discuss.getDiscussions (some e) db s = [] ∧
       Discuss.getMyDiscussions (some e) db uid = [] ∧
       Discuss.getCommentByDiscussionId (some e) db s did = []) ∧
    (∀ (m : String) (db : Discuss.DB) (s : Option String) (id : String),
       (Discuss.toggleLike (some (Discuss.JSError.error m)) db s id).1 =
         { success := false, error := some m, upVote := 0, likedBy := false } ∧
       (Discuss.toggleCommentLike (some (Discuss.JSError.error m)) db s id).1 =
         { success := false, error := some m, upVote := 0, likedBy := false } ∧
       (Discuss.toggleLike (some Discuss.JSError.nonError) db s id).1 =
         { success := false, error := some "Unknown error", upVote := 0,
           likedBy := false }) ∧
    (∀ (m : String) (db : Discuss.DB) (t d u nid : String) (now : Nat)
       (inp : Discuss.DiscussionInput),
       Discuss.createDiscussionSchemaParse t d = Except.ok inp →
       Discuss.jsTrim t ≠ "" → Discuss.jsTrim d ≠ "" →
       (Discuss.addDiscussion (some (Discuss.JSError.error m)) db t d u nid now).1 =
         some { success := false, error := some m, data := none } ∧
       (Discuss.addDiscussion (some Discuss.JSError.nonError) db t d u nid now).1 =
         none) ∧
    (∀ (e : Discuss.JSError) (db : Discuss.DB) (hash : String → String)
       (em pw fn nid : String) (inp : Discuss.RegistrationInput),
       Discuss.userResgistrationSchemaParse em pw fn = Except.ok inp →
       (Discuss.createDiscussAccount (some e) db hash em pw fn nid).1 = none) := by
  refine ⟨?_, ?_, ?_, ?_⟩
  · intro e db s uid did
    exact ⟨rfl, rfl, rfl⟩
  · intro m db s id
    exact ⟨rfl, rfl, rfl⟩
  · intro m db t d u nid now inp hp ht hd
    constructor
    · simp only [Discuss.addDiscussion, hp]
      rw [if_neg (by simp [ht, hd])]
    · simp only [Discuss.addDiscussion, hp]
      rw [if_neg (by simp [ht, hd])]
  · intro e db hash em pw fn nid inp hp
    simp only [Discuss.createDiscussAccount, hp]

/-- Witness for C7 (amended) at concrete failures and inputs. -/
theorem C7_amended_witness :
    Discuss.getDiscussions (some Discuss.JSError.nonError)
        Discuss.sampleDb none = [] ∧
    (Discuss.toggleLike (some (Discuss.JSError.error "db down"))
        Discuss.sampleDb (some "u1") "d1").1 =
      { success := false, error := some "db down", upVote := 0,
        likedBy := false } ∧
    (Discuss.addDiscussion (some (Discuss.JSError.error "db down"))
        Discuss.sampleDb "Hi There" "This is a test discussion body"
        "u1" "d9" 7).1 =
      some { success := false, error := some "db down", data := none } ∧
    (Discuss.createDiscussAccount (some (Discuss.JSError.error "db down"))
        Discuss.sampleDb (fun p => p) "b@x.com" "Abcdef1!" "B Test" "u2").1 =
      none := by
  refine ⟨(C7_amended_failure_surfacing.1 Discuss.JSError.nonError
      Discuss.sampleDb none "u" "d").1,
    (C7_amended_failure_surfacing.2.1 "db down" Discuss.sampleDb
      (some "u1") "d1").1, ?_, ?_⟩
  · exact (C7_amended_failure_surfacing.2.2.1 "db down" Discuss.sampleDb
      "Hi There" "This is a test discussion body" "u1" "d9" 7
      { title := "Hi There", description := "This is a test discussion body" }
      (by rfl) (by decide) (by decide)).1
  · exact C7_amended_failure_surfacing.2.2.2 (Discuss.JSError.error "db down")
      Discuss.sampleDb (fun p => p) "b@x.com" "Abcdef1!" "B Test" "u2"
      { fullName := "B Test", email := "b@x.com", password := "Abcdef1!" }
      (by rfl)

namespace Discuss

theorem zodMinMaxTrim_issues_nil_iff (mn mx : Nat) (m1 m2 : String)
    (s : String) :
    (zodMinMaxTrim mn mx m1 m2 s).1 = [] ↔
      (mn ≤ s.length ∧ s.length ≤ mx) := by
  unfold zodMinMaxTrim
  by_cases h1 : s.length < mn <;> by_cases h2 : s.length > mx <;>
    simp [h1, h2] <;> omega

end Discuss

/-- **C8, counterexample.** `validateComment` on the one-space string: the
untrimmed length 1 is within the declared bounds [1,2000] while the trimmed
length 0 is below the minimum, yet the input is *accepted* (with the trimmed
empty string as output) — the claim says it must be rejected. -/
theorem C8_counterexample_untrimmed_accepted :
    (" " : String).length = 1 ∧
    (Discuss.jsTrim " ").length = 0 ∧
    Discuss.createCommentSchemaParse " " =
      Except.ok { description := "" } := by
  exact ⟨rfl, rfl, rfl⟩

/-- **C8, amended.** In every schema the `.trim()` transform is the *last*
link of the chain, so the minimum/maximum length checks run on the raw,
untrimmed input; acceptance depends only on the untrimmed length, and on
success the parsed value carries the trimmed string (email and password are
never trimmed at all). -/
theorem C8_amended_trim_after_length_checks :
    (∀ s : String,
       (∃ out, Discuss.createCommentSchemaParse s = Except.ok out) ↔
         (1 ≤ s.length ∧ s.length ≤ 2000)) ∧
    (∀ s out, Discuss.createCommentSchemaParse s = Except.ok out →
       out.description = Discuss.jsTrim s) ∧
    (∀ t d : String,
       (∃ out, Discuss.createDiscussionSchemaParse t d = Except.ok out) ↔
         (3 ≤ t.length ∧ t.length ≤ 200 ∧ 3 ≤ d.length ∧ d.length ≤ 1000)) ∧
    (∀ t d out, Discuss.createDiscussionSchemaParse t d = Except.ok out →
       out.title = Discuss.jsTrim t ∧ out.description = Discuss.jsTrim d) ∧
    (∀ s : String, Discuss.fullNameIssues s = [] ↔
       (3 ≤ s.length ∧ s.length ≤ 30)) := by
  refine ⟨?_, ?_, ?_, ?_, ?_⟩
  · intro s
    unfold Discuss.createCommentSchemaParse
    by_cases h : ((Discuss.zodMinMaxTrim 1 2000 "Comment cannot be empty"
        "Comment must not exceed 2000 characters" s).1).isEmpty
    · rw [if_pos h]
      simp only [Except.ok.injEq, exists_eq']
      rw [true_iff]
      exact (Discuss.zodMinMaxTrim_issues_nil_iff 1 2000 _ _ s).mp
        (List.isEmpty_iff.mp h)
    · rw [if_neg h]
      constructor
      · rintro ⟨out, hout⟩
        cases hout
      · intro hb
        exact absurd (List.isEmpty_iff.mpr
          ((Discuss.zodMinMaxTrim_issues_nil_iff 1 2000 _ _ s).mpr hb)) h
  · intro s out hout
    unfold Discuss.createCommentSchemaParse at hout
    by_cases h : ((Discuss.zodMinMaxTrim 1 2000 "Comment cannot be empty"
        "Comment must not exceed 2000 characters" s).1).isEmpty
    · rw [if_pos h] at hout
      cases hout
      rfl
    · rw [if_neg h] at hout
      cases hout
  · intro t d
    unfold Discuss.createDiscussionSchemaParse
    by_cases h : (((Discuss.zodMinMaxTrim 3 200 "Must not be less than 3 characters"
        "Must not be more than 200 characters" t).1 ++
        (Discuss.zodMinMaxTrim 3 1000 "Must not be less than 3 characters"
        "Must not be more than 1000 characters" d).1)).isEmpty
    · rw [if_pos h]
      simp only [Except.ok.injEq, exists_eq']
      rw [true_iff]
      have hnil := List.isEmpty_iff.mp h
      rw [List.append_eq_nil] at hnil
      have h1 := (Discuss.zodMinMaxTrim_issues_nil_iff 3 200 _ _ t).mp hnil.1
      have h2 := (Discuss.zodMinMaxTrim_issues_nil_iff 3 1000 _ _ d).mp hnil.2
      exact ⟨h1.1, h1.2, h2.1, h2.2⟩
    · rw [if_neg h]
      constructor
      · rintro ⟨out, hout⟩
        cases hout
      · rintro ⟨hb1, hb2, hb3, hb4⟩
        refine absurd (List.isEmpty_iff.mpr ?_) h
        rw [List.append_eq_nil]
        exact ⟨(Discuss.zodMinMaxTrim_issues_nil_iff 3 200 _ _ t).mpr ⟨hb1, hb2⟩,
               (Discuss.zodMinMaxTrim_issues_nil_iff 3 1000 _ _ d).mpr ⟨hb3, hb4⟩⟩
  · intro t d out hout
    unfold Discuss.createDiscussionSchemaParse at hout
    by_cases h : (((Discuss.zodMinMaxTrim 3 200 "Must not be less than 3 characters"
        "Must not be more than 200 characters" t).1 ++
        (Discuss.zodMinMaxTrim 3 1000 "Must not be less than 3 characters"
        "Must not be more than 1000 characters" d).1)).isEmpty
    · rw [if_pos h] at hout
      cases hout
      exact ⟨rfl, rfl⟩
    · rw [if_neg h] at hout
      cases hout
  · intro s
    exact Discuss.zodMinMaxTrim_issues_nil_iff 3 30 _ _ s

/-- Witness for C8 (amended): a comment with leading blanks is accepted from
its untrimmed length and parsed to the trimmed value; the full-name issue
list is empty exactly for in-bounds raw lengths. -/
theorem C8_amended_witness :
    (∃ out, Discuss.createCommentSchemaParse "  hi" = Except.ok out) ∧
    (Discuss.CommentInput.mk "hi").description = Discuss.jsTrim "  hi" ∧
    Discuss.fullNameIssues "A Test" = [] :=
  ⟨(C8_amended_trim_after_length_checks.1 "  hi").mpr ⟨by decide, by decide⟩,
   C8_amended_trim_after_length_checks.2.1 "  hi" (Discuss.CommentInput.mk "hi")
     (by rfl),
   (C8_amended_trim_after_length_checks.2.2.2.2 "A Test").mpr
     ⟨by decide, by decide⟩⟩

set_option maxRecDepth 8192 in
/-- **C9, counterexample.** A 201-character title whose trimmed length is 200
(within [3,200]) with a valid description: the claim says `validateDiscussion`
succeeds, but the length check runs on the untrimmed string and the parse
fails with the maximum-length message. -/
theorem C9_counterexample_trimmed_title_rejected :
    Discuss.longTitle.length = 201 ∧
    (Discuss.jsTrim Discuss.longTitle).length = 200 ∧
    3 ≤ (Discuss.jsTrim Discuss.longTitle).length ∧
    (Discuss.jsTrim Discuss.longTitle).length ≤ 200 ∧
    3 ≤ ("This is a test discussion body" : String).length ∧
    ("This is a test discussion body" : String).length ≤ 1000 ∧
    Discuss.createDiscussionSchemaParse Discuss.longTitle
        "This is a test discussion body" =
      Except.error ["Must not be more than 200 characters"] := by
  refine ⟨by decide, by decide, by decide, by decide, by decide, by decide,
    by rfl⟩

/-- **C9, amended.** For untrimmed title length in [3,200] and untrimmed
description length in [3,1000], `validateDiscussion` succeeds with the
trimmed values; a title of length 2 fails with the minimum-length boundary
message first, a title of length 201 fails with the maximum-length boundary
message first; and on any failure `addDiscussion` returns only the first
violated rule's message (checks in chain order `min` then `max`, fields in
declaration order title, description). -/
theorem C9_amended_validateDiscussion_bounds :
    (∀ t d : String, 3 ≤ t.length → t.length ≤ 200 → 3 ≤ d.length →
       d.length ≤ 1000 →
       Discuss.createDiscussionSchemaParse t d =
         Except.ok { title := Discuss.jsTrim t,
                     description := Discuss.jsTrim d }) ∧
    (∀ t d : String, t.length = 2 →
       ∃ rest, Discuss.createDiscussionSchemaParse t d =
         Except.error ("Must not be less than 3 characters" :: rest)) ∧
    (∀ t d : String, t.length = 201 →
       ∃ rest, Discuss.createDiscussionSchemaParse t d =
         Except.error ("Must not be more than 200 characters" :: rest)) ∧
    (∀ (fail : Option Discuss.JSError) (db : Discuss.DB)
       (t d u nid : String) (now : Nat) (issues : List String),
       Discuss.createDiscussionSchemaParse t d = Except.error issues →
       (Discuss.addDiscussion fail db t d u nid now).1 =
         some { success := false, error := some (issues.headD ""),
                data := none }) := by
  refine ⟨?_, ?_, ?_, ?_⟩
  · intro t d h1 h2 h3 h4
    unfold Discuss.createDiscussionSchemaParse
    rw [if_pos (by
      rw [List.isEmpty_iff, List.append_eq_nil]
      exact ⟨(Discuss.zodMinMaxTrim_issues_nil_iff 3 200 _ _ t).mpr ⟨h1, h2⟩,
             (Discuss.zodMinMaxTrim_issues_nil_iff 3 1000 _ _ d).mpr ⟨h3, h4⟩⟩)]
    rfl
  · intro t d ht
    have htmin : (Discuss.zodMinMaxTrim 3 200 "Must not be less than 3 characters"
        "Must not be more than 200 characters" t).1 =
        ["Must not be less than 3 characters"] := by
      unfold Discuss.zodMinMaxTrim
      rw [if_pos (by omega), if_neg (by omega)]
      rfl
    refine ⟨(Discuss.zodMinMaxTrim 3 1000 "Must not be less than 3 characters"
      "Must not be more than 1000 characters" d).1, ?_⟩
    unfold Discuss.createDiscussionSchemaParse
    simp [htmin]
  · intro t d ht
    have htmax : (Discuss.zodMinMaxTrim 3 200 "Must not be less than 3 characters"
        "Must not be more than 200 characters" t).1 =
        ["Must not be more than 200 characters"] := by
      unfold Discuss.zodMinMaxTrim
      rw [if_neg (by omega), if_pos (by omega)]
      rfl
    refine ⟨(Discuss.zodMinMaxTrim 3 1000 "Must not be less than 3 characters"
      "Must not be more than 1000 characters" d).1, ?_⟩
    unfold Discuss.createDiscussionSchemaParse
    simp [htmax]
  · intro fail db t d u nid now issues hp
    simp only [Discuss.addDiscussion, hp]

set_option maxRecDepth 8192 in
/-- Witness for C9 (amended) at concrete titles of lengths 3, 2 and 201. -/
theorem C9_amended_witness :
    Discuss.createDiscussionSchemaParse "abc" "abcd" =
      Except.ok { title := Discuss.jsTrim "abc",
                  description := Discuss.jsTrim "abcd" } ∧
    (∃ rest, Discuss.createDiscussionSchemaParse "ab" "abcd" =
      Except.error ("Must not be less than 3 characters" :: rest)) ∧
    (∃ rest, Discuss.createDiscussionSchemaParse Discuss.longTitle "abcd" =
      Except.error ("Must not be more than 200 characters" :: rest)) ∧
    (Discuss.addDiscussion none Discuss.sampleDb "ab" "abcd" "u1" "d9" 7).1 =
      some { success := false,
             error := some (["Must not be less than 3 characters"].headD ""),
             data := none } :=
  ⟨C9_amended_validateDiscussion_bounds.1 "abc" "abcd"
     (by decide) (by decide) (by decide) (by decide),
   C9_amended_validateDiscussion_bounds.2.1 "ab" "abcd" (by decide),
   C9_amended_validateDiscussion_bounds.2.2.1 Discuss.longTitle "abcd"
     (by decide),
   C9_amended_validateDiscussion_bounds.2.2.2 none Discuss.sampleDb
     "ab" "abcd" "u1" "d9" 7 ["Must not be less than 3 characters"] (by rfl)⟩

/-- **C10.** `getCommentByDiscussionId` returns a discussion's comments
sorted by ascending creation timestamp (oldest first) — and the returned
views are exactly that discussion's comments (a permutation by id); the
general discussion feed is sorted the opposite way, descending (newest
first), and is a permutation of the whole collection.  The comment clause
assumes every relevant comment's author resolves, since an unresolved author
collapses the listing to `[]` (see C6). -/
theorem C10_comment_ascending_feed_descending :
    (∀ (db : Discuss.DB) (s : Option String) (did : String),
       (∀ c ∈ db.comments, c.discussId = did →
          (Discuss.findUserById db c.userId).isSome) →
       (List.Pairwise (fun a b => a.createdAt ≤ b.createdAt)
          (Discuss.getCommentByDiscussionId none db s did) ∧
        List.Perm
          ((Discuss.getCommentByDiscussionId none db s did).map
            (fun v => v._id))
          ((db.comments.filter (fun c => c.discussId == did)).map
            (fun c => c._id)))) ∧
    (∀ (db : Discuss.DB) (s : Option String),
       List.Pairwise (fun a b => b.createdAt ≤ a.createdAt)
         (Discuss.getDiscussions none db s) ∧
       List.Perm
         ((Discuss.getDiscussions none db s).map (fun v => v._id))
         (db.discussions.map (fun d => d._id))) := by
  constructor
  · intro db s did hauthors
    have hall : ∀ c ∈ Discuss.sortBy
        (fun a b => decide (a.createdAt ≤ b.createdAt))
        (db.comments.filter (fun c => c.discussId == did)),
        (Discuss.findUserById db c.userId).isSome := by
      intro c hc
      have hcf := (Discuss.perm_sortBy _ _).mem_iff.mp hc
      rw [List.mem_filter] at hcf
      exact hauthors c hcf.1 (by simpa using hcf.2)
    obtain ⟨out, hout, hmap⟩ := Discuss.mapM_commentView_ok db s _ hall
    have hres : Discuss.getCommentByDiscussionId none db s did = out := by
      unfold Discuss.getCommentByDiscussionId
      rw [hout]
    have hsorted : List.Pairwise
        (fun a b : Discuss.Comment => a.createdAt ≤ b.createdAt)
        (Discuss.sortBy (fun a b => decide (a.createdAt ≤ b.createdAt))
          (db.comments.filter (fun c => c.discussId == did))) :=
      Discuss.pairwise_sortBy
        (fun a b : Discuss.Comment => a.createdAt ≤ b.createdAt)
        (fun a b => decide (a.createdAt ≤ b.createdAt))
        (fun a b h => by simpa using h)
        (fun a b h => by simp at h; omega)
        (fun a b c h1 h2 => le_trans h1 h2) _
    have hproj2 : out.map (fun v => v.createdAt) =
        (Discuss.sortBy (fun a b => decide (a.createdAt ≤ b.createdAt))
          (db.comments.filter (fun c => c.discussId == did))).map
          (fun c => c.createdAt) := by
      have := congrArg (List.map Prod.snd) hmap
      simpa [List.map_map, Function.comp] using this
    have hproj1 : out.map (fun v => v._id) =
        (Discuss.sortBy (fun a b => decide (a.createdAt ≤ b.createdAt))
          (db.comments.filter (fun c => c.discussId == did))).map
          (fun c => c._id) := by
      have := congrArg (List.map Prod.fst) hmap
      simpa [List.map_map, Function.comp] using this
    constructor
    · rw [hres]
      have h1 : List.Pairwise (fun a b : Nat => a ≤ b)
          (out.map fun v => v.createdAt) := by
        rw [hproj2, List.pairwise_map]
        exact hsorted
      rw [List.pairwise_map] at h1
      exact h1
    · rw [hres, hproj1]
      exact (Discuss.perm_sortBy _ _).map _
  · intro db s
    constructor
    · unfold Discuss.getDiscussions
      rw [List.pairwise_map]
      exact Discuss.pairwise_sortBy
        (fun a b : Discuss.Discussion => b.createdAt ≤ a.createdAt)
        (fun a b => decide (b.createdAt ≤ a.createdAt))
        (fun a b h => by simpa using h)
        (fun a b h => by simp at h; omega)
        (fun a b c h1 h2 => le_trans h2 h1) _
    · unfold Discuss.getDiscussions
      rw [List.map_map]
      exact (Discuss.perm_sortBy _ _).map _

/-- Witness for C10 at the concrete store (one comment, resolvable author). -/
theorem C10_witness :
    (List.Pairwise (fun a b => a.createdAt ≤ b.createdAt)
        (Discuss.getCommentByDiscussionId none Discuss.sampleDb none "d1") ∧
     List.Perm
       ((Discuss.getCommentByDiscussionId none Discuss.sampleDb none "d1").map
         (fun v => v._id))
       ((Discuss.sampleDb.comments.filter (fun c => c.discussId == "d1")).map
         (fun c => c._id))) ∧
    (List.Pairwise (fun a b => b.createdAt ≤ a.createdAt)
        (Discuss.getDiscussions none Discuss.sampleDb none) ∧
     List.Perm
       ((Discuss.getDiscussions none Discuss.sampleDb none).map
         (fun v => v._id))
       (Discuss.sampleDb.discussions.map (fun d => d._id))) :=
  ⟨C10_comment_ascending_feed_descending.1 Discuss.sampleDb none "d1"
     (by decide),
   C10_comment_ascending_feed_descending.2 Discuss.sampleDb none⟩
